import Mathlib

/-!
Shallow embedding of the request-dispatch core of `buckets-mdapi`
(src/buckets-mdapi/src/lib.rs): the `util` module's `claim_pool_connection`,
`handle_msg`, `unwrap_fast_message`, `other_error`, `array_wrap` and
`handle_request`, together with the data model from the `types` module
(`HandlerError`, `HandlerResponse`) and the external collaborator shapes the
dispatch code consumes (Fast messages, the cueball pool error, the metrics
sink, the logger).

Modelling conventions:
* Side effects (the request counter, the two latency histograms, the log)
  are threaded through every function as an explicit `Effects` record; each
  histogram is modelled as the list of its observations' label values
  (newest first).  Wall-clock durations (the observed float values) are not
  modelled; the claims concern only observation counts and labels.
* `serde_json::Value` is modelled by the inductive `Json`; serde decode
  errors are modelled by their message string (`e.to_string()` is the
  identity on the model).
* The cueball pool is external code; it is modelled by the single outcome
  its `claim()` call produces for the call under analysis.  The display
  text of `CueballError::ClaimFailure` is owned by the external crate and
  modelled by a named constant.
* The per-method decode functions and actions live in the `object`, `bucket`
  and `gc` modules, which are external collaborators of the dispatch core;
  they are modelled as an abstract record of functions (`Handlers`), with
  the payload type instantiated to `Json`.  `handle_request` itself is kept
  generic in the payload type, as in the source.  The logging context
  derivation (child logger with method / request id key-value pairs) is
  modelled by recording the message text of each log entry together with
  its level; structured context fields are not modelled.
-/

set_option autoImplicit false

/-- Model of `serde_json::Value`. -/
inductive Json where
  | null
  | bool (b : Bool)
  | num (n : Int)
  | str (s : String)
  | arr (elems : List Json)
  | obj (fields : List (String × Json))

/-- Log levels used by the dispatch core (`slog`'s debug / warn / error). -/
inductive LogLevel where
  | debug
  | warn
  | error
deriving DecidableEq, Repr

/-- Model of a claimed `PostgresConnection` handle: opaque to the dispatch
core, so a bare token suffices. -/
structure PostgresConnection where
  connId : Nat := 0
deriving DecidableEq, Repr

/-- Model of `cueball::error::Error`: the dispatch core distinguishes only
the `ClaimFailure` (claim timeout) variant from all others, so every other
variant is modelled by its display text. -/
inductive CueballError where
  | ClaimFailure
  | OtherErr (msg : String)
deriving DecidableEq, Repr

/-- Display text of `CueballError::ClaimFailure`; the exact wording is owned
by the external cueball crate, the dispatch core only forwards it. -/
def claimFailureText : String := "unable to claim connection before timeout"

/-- Model of `err.to_string()` on a cueball error. -/
def CueballError.message : CueballError → String
  | .ClaimFailure => claimFailureText
  | .OtherErr m => m

/-- Model of `std::io::ErrorKind`; the dispatch core only ever constructs
`ErrorKind::Other` (via `other_error`). -/
inductive ErrorKind where
  | other
deriving DecidableEq, Repr

/-- Model of `std::io::Error` as constructed by this module: a kind plus a
message string. -/
structure IOError where
  kind : ErrorKind
  message : String
deriving DecidableEq, Repr

/-- Source: `other_error` in lib.rs — build an `ErrorKind::Other` IO error
carrying the given message. -/
def other_error (msg : String) : IOError := ⟨ErrorKind.other, msg⟩

/-- Model of `fast_rpc::protocol::FastMessageData`: the method name (field
`m.name`) and the JSON data (field `d`). -/
structure FastMessageData where
  name : String
  d : Json

/-- Model of `FastMessageData::new(method, value)`. -/
def FastMessageData.new (name : String) (d : Json) : FastMessageData := ⟨name, d⟩

/-- Model of `fast_rpc::protocol::FastMessage`: correlation id plus data. -/
structure FastMessage where
  id : Nat
  data : FastMessageData

/-- Source: `types::HandlerError` — either a propagated cueball error or an
IO error (constructor `IO` in the source, named `Io` here). -/
inductive HandlerError where
  | Cueball (e : CueballError)
  | Io (e : IOError)

/-- Source: `types::HandlerResponse` — one message or many. -/
inductive HandlerResponse where
  | Message (msg : FastMessage)
  | Messages (msgs : List FastMessage)

/-- Observable side effects of one dispatch call: the request counter, the
two histograms (as lists of observation labels, newest first) and the log
(level and message text, newest first). -/
structure Effects where
  request_count : Nat
  connection_claim_obs : List String
  fast_requests_obs : List (String × String)
  logs : List (LogLevel × String)
deriving DecidableEq, Repr

/-- Model of the cueball connection pool: the outcome its `claim()` call
produces for the call under analysis. -/
structure Pool where
  claim : Except CueballError PostgresConnection

/-- Boolean success test on `Except` (model of `Result::is_ok`). -/
def exceptIsOk {ε α : Type} : Except ε α → Bool
  | .ok _ => true
  | .error _ => false

/-- Source: `claim_pool_connection` in lib.rs — attempt to claim a pool
connection, record exactly one claim-latency observation labeled by the
outcome, and return the claim result unchanged. -/
def claim_pool_connection (pool : Pool) (eff : Effects) :
    Except CueballError PostgresConnection × Effects :=
  let claim_result := pool.claim
  let success := if exceptIsOk claim_result then "true" else "false"
  (claim_result,
    { eff with connection_claim_obs := success :: eff.connection_claim_obs })

/-- Source: `array_wrap` in lib.rs — wrap a JSON value in a one-element
array. -/
def array_wrap (v : Json) : Json := Json.arr [v]

/-- Source: `unwrap_fast_message` in lib.rs — remove the outer one-element
array required by Fast: an empty array fails with a fixed message (logged at
warn level), otherwise the first element is returned. -/
def unwrap_fast_message {X : Type} (operation : String) (eff : Effects)
    (arr : List X) : Except String X × Effects :=
  match arr with
  | [] =>
      let err_msg :=
        "Failed to parse JSON data as payload for " ++ operation ++ " function"
      (.error err_msg, { eff with logs := (LogLevel.warn, err_msg) :: eff.logs })
  | x :: _ => (.ok x, eff)

/-- Source: `handle_request` in lib.rs — the generic per-method adapter:
turn a decode failure into its message, unwrap the one-element envelope,
invoke the action on the payload, and wrap any string error into
`HandlerError::IO(other_error(..))`.  The action is the external per-method
capability `(msg_id, method, payload, conn) -> Result<HandlerResponse,
String>`; the metrics and logger arguments it receives in the source are
dropped here since external actions do not touch the dispatch-level
metrics. -/
def handle_request {X : Type} (msg_id : Nat) (method : String)
    (data : Except String (List X)) (conn : PostgresConnection)
    (action : Nat → String → X → PostgresConnection →
      Except String HandlerResponse)
    (eff : Effects) : Except HandlerError HandlerResponse × Effects :=
  let eff1 := { eff with logs := (LogLevel.debug, "handling request") :: eff.logs }
  match data with
  | .error e => (.error (HandlerError.Io (other_error e)), eff1)
  | .ok arr =>
    match unwrap_fast_message method eff1 arr with
    | (.error e, eff2) => (.error (HandlerError.Io (other_error e)), eff2)
    | (.ok payload, eff2) =>
        let eff3 :=
          { eff2 with logs := (LogLevel.debug, "parsed payload") :: eff2.logs }
        match action msg_id method payload conn with
        | .ok r => (.ok r, eff3)
        | .error e => (.error (HandlerError.Io (other_error e)), eff3)

/-- Type of a per-method decode function (`decode_msg`): raw JSON to a
vector of payloads or a serde error message (payload type `Json` in the
instantiated model). -/
def DecodeFn : Type := Json → Except String (List Json)

/-- Type of a per-method action function, as consumed by the dispatch core:
`(msg_id, method, payload, conn) -> Result<HandlerResponse, String>`. -/
def ActionFn : Type :=
  Nat → String → Json → PostgresConnection → Except String HandlerResponse

/-- Modelled from the spec: the external decode/action pairs of the eleven
registered methods, which live in the `object`, `bucket` and `gc` modules
(declared but not part of the dispatch core under analysis).  Each field
stands for one `module::op::decode_msg` / `module::op::action` item. -/
structure Handlers where
  object_get_decode : DecodeFn
  object_get_action : ActionFn
  object_create_decode : DecodeFn
  object_create_action : ActionFn
  object_update_decode : DecodeFn
  object_update_action : ActionFn
  object_delete_decode : DecodeFn
  object_delete_action : ActionFn
  object_list_decode : DecodeFn
  object_list_action : ActionFn
  bucket_get_decode : DecodeFn
  bucket_get_action : ActionFn
  bucket_create_decode : DecodeFn
  bucket_create_action : ActionFn
  bucket_delete_decode : DecodeFn
  bucket_delete_action : ActionFn
  bucket_list_decode : DecodeFn
  bucket_list_action : ActionFn
  gc_get_decode : DecodeFn
  gc_get_action : ActionFn
  gc_delete_decode : DecodeFn
  gc_delete_action : ActionFn

/-- Source: the `match method` arm selection inside `handle_msg` in lib.rs —
the method registry: exact string match of the wire method name against the
eleven registered names, yielding that method's decode/action pair; any
other name (the default `_` arm) yields no pair.  The order of the tests is
the order of the source's match arms. -/
def methodTable (h : Handlers) (method : String) :
    Option (DecodeFn × ActionFn) :=
  if method = "getobject" then some (h.object_get_decode, h.object_get_action)
  else if method = "createobject" then
    some (h.object_create_decode, h.object_create_action)
  else if method = "updateobject" then
    some (h.object_update_decode, h.object_update_action)
  else if method = "deleteobject" then
    some (h.object_delete_decode, h.object_delete_action)
  else if method = "listobjects" then
    some (h.object_list_decode, h.object_list_action)
  else if method = "getbucket" then
    some (h.bucket_get_decode, h.bucket_get_action)
  else if method = "createbucket" then
    some (h.bucket_create_decode, h.bucket_create_action)
  else if method = "deletebucket" then
    some (h.bucket_delete_decode, h.bucket_delete_action)
  else if method = "listbuckets" then
    some (h.bucket_list_decode, h.bucket_list_action)
  else if method = "getgcbatch" then
    some (h.gc_get_decode, h.gc_get_action)
  else if method = "deletegcbatch" then
    some (h.gc_delete_decode, h.gc_delete_action)
  else none

/-- Source: the `match method` block inside `handle_msg` in lib.rs — route
a request to the registered method's decode/action pair via
`handle_request`, or fail with the (literally misspelled) message
"Unsupported functon: {method}" from the default arm. -/
def dispatchMethod (h : Handlers) (msg_id : Nat) (method : String) (d : Json)
    (conn : PostgresConnection) (eff : Effects) :
    Except HandlerError HandlerResponse × Effects :=
  match methodTable h method with
  | some (dec, act) => handle_request msg_id method (dec d) conn act eff
  | none =>
      (.error (HandlerError.Io (other_error ("Unsupported functon: " ++ method))),
        eff)

/-- Source: the response-assembly `and_then` of `handle_msg` — turn a
`HandlerResponse` into the vector of wire messages pushed into `response`
(one message is pushed; a message vector is appended). -/
def responseList : HandlerResponse → List FastMessage
  | .Message m => [m]
  | .Messages ms => ms

/-- Source: the first `or_else` closure of `handle_msg` — classify a failed
step: a claim timeout is converted into a synthesized `OverloadedError`
success response (logged at warn level), any other cueball error is logged
at error level and propagated, and every other error is propagated
untouched.  The Boolean component is the source's `connection_acquired`
flag, which the closure sets to `false` whenever it runs. -/
def recoverClaimError (method : String) (msg_id : Nat)
    (step : Except HandlerError HandlerResponse × Effects) :
    Except HandlerError HandlerResponse × Effects × Bool :=
  match step with
  | (.ok r, eff3) => (.ok r, eff3, true)
  | (.error (HandlerError.Cueball CueballError.ClaimFailure), eff3) =>
      let eff4 := { eff3 with
        logs := (LogLevel.warn, "timed out claiming connection") :: eff3.logs }
      let value := array_wrap (Json.obj
        [("error", Json.obj
          [("name", Json.str "OverloadedError"),
           ("message", Json.str CueballError.ClaimFailure.message)])])
      let msg_data := FastMessageData.new method value
      (.ok (HandlerResponse.Message ⟨msg_id, msg_data⟩), eff4, false)
  | (.error (HandlerError.Cueball e), eff3) =>
      (.error (HandlerError.Cueball e),
        { eff3 with
          logs := (LogLevel.error, "unexpected error claiming connection")
            :: eff3.logs },
        false)
  | (.error e, eff3) => (.error e, eff3, false)

/-- Source: the final two `and_then` closures and the final `or_else`
closure of `handle_msg` — assemble the response vector and record exactly
one per-(method, outcome) latency observation: outcome is "true" only when
the step succeeded with the `connection_acquired` flag still set; on
failure the outcome is "false" and every fatal error collapses into a
single IO error carrying the originating message text. -/
def finishRequest (method : String) (connection_acquired : Bool)
    (step : Except HandlerError HandlerResponse × Effects) :
    Except IOError (List FastMessage) × Effects :=
  match step with
  | (.ok res, eff3) =>
      let response := responseList res
      let success := if connection_acquired then "true" else "false"
      (.ok response,
        { eff3 with
          fast_requests_obs := (method, success) :: eff3.fast_requests_obs })
  | (.error err, eff3) =>
      let eff4 := { eff3 with
        fast_requests_obs := (method, "false") :: eff3.fast_requests_obs }
      let ret_err :=
        match err with
        | HandlerError.Cueball cueball_err => other_error cueball_err.message
        | HandlerError.Io io_err => io_err
      (.error ret_err, eff4)

/-- Source: `handle_msg` in lib.rs — the dispatch entry point: bump the
request counter, claim a connection (recording claim latency), dispatch to
the registered method, convert a claim timeout into a synthesized
`OverloadedError` success response, assemble the response vector, record
exactly one per-(method, outcome) latency observation, and collapse every
fatal failure into a single IO error.  The closures of the source's
`and_then` / `or_else` chain are the named steps `recoverClaimError` and
`finishRequest`. -/
def handle_msg (msg : FastMessage) (pool : Pool) (h : Handlers)
    (eff0 : Effects) : Except IOError (List FastMessage) × Effects :=
  let eff1 := { eff0 with request_count := eff0.request_count + 1 }
  let method := msg.data.name
  let (claim_res, eff2) := claim_pool_connection pool eff1
  -- `.map_err(HandlerError::Cueball).and_then(|conn| match method { .. })`
  let step1 : Except HandlerError HandlerResponse × Effects :=
    match claim_res with
    | .ok conn => dispatchMethod h msg.id method msg.data.d conn eff2
    | .error e => (.error (HandlerError.Cueball e), eff2)
  let (step2, eff3, connection_acquired) := recoverClaimError method msg.id step1
  finishRequest method connection_acquired (step2, eff3)

/-- Test whether a handler result is a propagated cueball (pool) error;
used to state that the dispatch/adapter layer only ever produces IO-style
errors, so the claim-timeout recovery branch can never fire after a
successful claim. -/
def isCueballErr {α : Type} : Except HandlerError α → Bool
  | .error (HandlerError.Cueball _) => true
  | _ => false

/-- Decode function used to instantiate the external handlers at concrete
inputs: succeed with the one-element envelope holding the raw value. -/
def decodeId : DecodeFn := fun d => .ok [d]

/-- Action used to instantiate the external handlers at concrete inputs:
succeed with a single echo message. -/
def actionEcho : ActionFn := fun i m p _ => .ok (.Message ⟨i, ⟨m, p⟩⟩)

/-- Concrete instantiation of the eleven external decode/action pairs. -/
def trivialHandlers : Handlers :=
  ⟨decodeId, actionEcho, decodeId, actionEcho, decodeId, actionEcho,
   decodeId, actionEcho, decodeId, actionEcho, decodeId, actionEcho,
   decodeId, actionEcho, decodeId, actionEcho, decodeId, actionEcho,
   decodeId, actionEcho, decodeId, actionEcho⟩

/-- Effects record with zero counters, empty histograms and an empty log. -/
def emptyEffects : Effects := ⟨0, [], [], []⟩

/-- Adapter effect preservation: `handle_request` touches only the log; the
request counter and both histograms are unchanged. -/
theorem handle_request_effects {X : Type} (msg_id : Nat) (method : String)
    (data : Except String (List X)) (conn : PostgresConnection)
    (action : Nat → String → X → PostgresConnection →
      Except String HandlerResponse)
    (eff : Effects) :
    (handle_request msg_id method data conn action eff).2.request_count
        = eff.request_count
    ∧ (handle_request msg_id method data conn action eff).2.fast_requests_obs
        = eff.fast_requests_obs
    ∧ (handle_request msg_id method data conn action eff).2.connection_claim_obs
        = eff.connection_claim_obs := by
  cases data with
  | error e => exact ⟨rfl, rfl, rfl⟩
  | ok arr =>
    cases arr with
    | nil => exact ⟨rfl, rfl, rfl⟩
    | cons x rest =>
      cases ha : action msg_id method x conn with
      | ok r => simp [handle_request, unwrap_fast_message, ha]
      | error e => simp [handle_request, unwrap_fast_message, ha]

/-- Dispatch effect preservation: the method-routing step touches only the
log; the request counter and both histograms are unchanged. -/
theorem dispatchMethod_effects (h : Handlers) (msg_id : Nat) (method : String)
    (d : Json) (conn : PostgresConnection) (eff : Effects) :
    (dispatchMethod h msg_id method d conn eff).2.request_count
        = eff.request_count
    ∧ (dispatchMethod h msg_id method d conn eff).2.fast_requests_obs
        = eff.fast_requests_obs
    ∧ (dispatchMethod h msg_id method d conn eff).2.connection_claim_obs
        = eff.connection_claim_obs := by
  unfold dispatchMethod
  cases methodTable h method with
  | none => exact ⟨rfl, rfl, rfl⟩
  | some p => exact handle_request_effects _ _ _ _ _ _

/-- Adapter error shape: `handle_request` only ever fails with
`HandlerError::IO`, never with a propagated cueball error. -/
theorem handle_request_no_cueball {X : Type} (msg_id : Nat) (method : String)
    (data : Except String (List X)) (conn : PostgresConnection)
    (action : Nat → String → X → PostgresConnection →
      Except String HandlerResponse)
    (eff : Effects) :
    isCueballErr (handle_request msg_id method data conn action eff).1
      = false := by
  cases data with
  | error e => rfl
  | ok arr =>
    cases arr with
    | nil => rfl
    | cons x rest =>
      cases ha : action msg_id method x conn with
      | ok r => simp [handle_request, unwrap_fast_message, isCueballErr, ha]
      | error e => simp [handle_request, unwrap_fast_message, isCueballErr, ha]

/-- Dispatch error shape: the routing step only ever fails with
`HandlerError::IO` (adapter failure or the unsupported-method error), never
with a cueball error. -/
theorem dispatchMethod_no_cueball (h : Handlers) (msg_id : Nat)
    (method : String) (d : Json) (conn : PostgresConnection) (eff : Effects) :
    isCueballErr (dispatchMethod h msg_id method d conn eff).1 = false := by
  unfold dispatchMethod
  cases methodTable h method with
  | none => rfl
  | some p => exact handle_request_no_cueball _ _ _ _ _ _

/-- Unfolding of `handle_msg` when the claim succeeds and the dispatched
handler succeeds: the handler's messages are returned and one
per-(method, outcome) observation with outcome "true" is recorded. -/
theorem handle_msg_claimed_dispatch_ok (msg : FastMessage)
    (conn : PostgresConnection) (h : Handlers) (eff : Effects)
    (r : HandlerResponse) (eff3 : Effects)
    (hd : dispatchMethod h msg.id msg.data.name msg.data.d conn
        { eff with request_count := eff.request_count + 1,
                   connection_claim_obs := "true" :: eff.connection_claim_obs }
      = (Except.ok r, eff3)) :
    handle_msg msg ⟨Except.ok conn⟩ h eff =
      (Except.ok (responseList r),
       { eff3 with fast_requests_obs :=
           (msg.data.name, "true") :: eff3.fast_requests_obs }) := by
  cases r <;>
    simp [handle_msg, claim_pool_connection, exceptIsOk, hd, recoverClaimError,
      finishRequest, responseList]

/-- Unfolding of `handle_msg` when the claim succeeds and the dispatched
handler fails with an IO-style error: the error is propagated and one
per-(method, outcome) observation with outcome "false" is recorded. -/
theorem handle_msg_claimed_dispatch_err (msg : FastMessage)
    (conn : PostgresConnection) (h : Handlers) (eff : Effects)
    (io_err : IOError) (eff3 : Effects)
    (hd : dispatchMethod h msg.id msg.data.name msg.data.d conn
        { eff with request_count := eff.request_count + 1,
                   connection_claim_obs := "true" :: eff.connection_claim_obs }
      = (Except.error (HandlerError.Io io_err), eff3)) :
    handle_msg msg ⟨Except.ok conn⟩ h eff =
      (Except.error io_err,
       { eff3 with fast_requests_obs :=
           (msg.data.name, "false") :: eff3.fast_requests_obs }) := by
  simp [handle_msg, claim_pool_connection, exceptIsOk, hd, recoverClaimError,
    finishRequest]

/-- Claim C1: for every dispatch call in which the connection claim fails
with the pool's timeout variant (`CueballError::ClaimFailure`), the call
returns Ok with exactly one response message, that message's correlation id
equals the request message's id, its data is a one-element array holding
the object with field "error" holding name "OverloadedError" and the pool
error's text as message, and the per-method latency histogram records
outcome label "false" for that call. -/
theorem claim_timeout_yields_overload_response (msg : FastMessage)
    (h : Handlers) (eff : Effects) :
    (handle_msg msg ⟨Except.error CueballError.ClaimFailure⟩ h eff).1 =
      Except.ok [⟨msg.id, FastMessageData.new msg.data.name
        (Json.arr [Json.obj [("error", Json.obj
          [("name", Json.str "OverloadedError"),
           ("message", Json.str CueballError.ClaimFailure.message)])]])⟩]
    ∧ (handle_msg msg ⟨Except.error CueballError.ClaimFailure⟩ h
          eff).2.fast_requests_obs =
        (msg.data.name, "false") :: eff.fast_requests_obs :=
  ⟨rfl, rfl⟩

/-- Claim C2 counterexample: the unsupported-method failure message is the
literally misspelled "Unsupported functon: frobnicate", which differs from
the "Unsupported function: frobnicate" the claim states. -/
theorem unsupported_method_misspelling_counterexample :
    (handle_msg ⟨7, ⟨"frobnicate", Json.null⟩⟩ ⟨Except.ok {}⟩ trivialHandlers
        emptyEffects).1 =
      Except.error (other_error "Unsupported functon: frobnicate")
    ∧ "Unsupported functon: frobnicate" ≠ "Unsupported function: frobnicate" :=
  ⟨rfl, by decide⟩

/-- Claim C2 (amended): for every request whose method name is not one of
the eleven registered names, after a successful connection claim
`handle_msg` returns Err (no response messages), no decode or action
function is invoked (the result does not depend on the handler functions),
and the failure's message is "Unsupported functon: {method}" — spelled as
in the source, with "functon" — containing the given method name; lookup is
exact string match with no normalization, so the empty method string also
takes this branch. -/
theorem unsupported_method_errs (g1 g2 : Handlers) (msg : FastMessage)
    (conn : PostgresConnection) (eff : Effects)
    (h1 : msg.data.name ≠ "getobject")
    (h2 : msg.data.name ≠ "createobject")
    (h3 : msg.data.name ≠ "updateobject")
    (h4 : msg.data.name ≠ "deleteobject")
    (h5 : msg.data.name ≠ "listobjects")
    (h6 : msg.data.name ≠ "getbucket")
    (h7 : msg.data.name ≠ "createbucket")
    (h8 : msg.data.name ≠ "deletebucket")
    (h9 : msg.data.name ≠ "listbuckets")
    (h10 : msg.data.name ≠ "getgcbatch")
    (h11 : msg.data.name ≠ "deletegcbatch") :
    (handle_msg msg ⟨Except.ok conn⟩ g1 eff).1 =
      Except.error (other_error ("Unsupported functon: " ++ msg.data.name))
    ∧ handle_msg msg ⟨Except.ok conn⟩ g1 eff
        = handle_msg msg ⟨Except.ok conn⟩ g2 eff := by
  have ht : ∀ g : Handlers, methodTable g msg.data.name = none := by
    intro g
    unfold methodTable
    simp [h1, h2, h3, h4, h5, h6, h7, h8, h9, h10, h11]
  constructor
  · simp [handle_msg, claim_pool_connection, exceptIsOk, dispatchMethod,
      ht g1, recoverClaimError, finishRequest]
  · simp [handle_msg, claim_pool_connection, exceptIsOk, dispatchMethod,
      ht g1, ht g2, recoverClaimError, finishRequest]

/-- Claim C2 witness: the empty method string takes the unsupported-method
branch. -/
theorem unsupported_method_errs_witness :
    (handle_msg ⟨3, ⟨"", Json.null⟩⟩ ⟨Except.ok {}⟩ trivialHandlers
        emptyEffects).1 =
      Except.error (other_error ("Unsupported functon: " ++ ""))
    ∧ handle_msg ⟨3, ⟨"", Json.null⟩⟩ ⟨Except.ok {}⟩ trivialHandlers
        emptyEffects
      = handle_msg ⟨3, ⟨"", Json.null⟩⟩ ⟨Except.ok {}⟩ trivialHandlers
          emptyEffects :=
  unsupported_method_errs trivialHandlers trivialHandlers
    ⟨3, ⟨"", Json.null⟩⟩ {} emptyEffects (by decide) (by decide) (by decide)
    (by decide) (by decide) (by decide) (by decide) (by decide) (by decide)
    (by decide) (by decide)

/-- Claim C3: every dispatch call records exactly one observation in the
per-(method, outcome) latency histogram before returning, on every branch,
and the outcome label is "true" if and only if a connection was acquired
and the call returns Ok; in particular the claim-timeout case records
"false" even though the call returns Ok. -/
theorem fast_requests_single_observation (msg : FastMessage) (pool : Pool)
    (h : Handlers) (eff : Effects) :
    (handle_msg msg pool h eff).2.fast_requests_obs =
      (msg.data.name,
        if exceptIsOk pool.claim && exceptIsOk (handle_msg msg pool h eff).1
        then "true" else "false") :: eff.fast_requests_obs := by
  cases pool with
  | mk claim =>
    cases claim with
    | error e =>
      cases e with
      | ClaimFailure => rfl
      | OtherErr s => rfl
    | ok conn =>
      rcases hd : dispatchMethod h msg.id msg.data.name msg.data.d conn
          { eff with request_count := eff.request_count + 1,
                     connection_claim_obs := "true" :: eff.connection_claim_obs }
        with ⟨res, eff3⟩
      have heff := dispatchMethod_effects h msg.id msg.data.name msg.data.d
        conn { eff with request_count := eff.request_count + 1,
                        connection_claim_obs := "true" :: eff.connection_claim_obs }
      rw [hd] at heff
      cases res with
      | ok r =>
          rw [handle_msg_claimed_dispatch_ok msg conn h eff r eff3 hd]
          simp [exceptIsOk]
          exact heff.2.1
      | error e =>
          cases e with
          | Cueball ce =>
              have hnc := dispatchMethod_no_cueball h msg.id msg.data.name
                msg.data.d conn
                { eff with request_count := eff.request_count + 1,
                           connection_claim_obs := "true" :: eff.connection_claim_obs }
              rw [hd] at hnc
              simp [isCueballErr] at hnc
          | Io io_err =>
              rw [handle_msg_claimed_dispatch_err msg conn h eff io_err eff3 hd]
              simp [exceptIsOk]
              exact heff.2.1

/-- Claim C4: a dispatch call in which the connection claim fails with a
non-timeout pool error returns Err carrying the pool error's message text
as an IO-style error, records outcome label "false" in the per-method
latency histogram, and logs at error level. -/
theorem fatal_pool_error_propagates (msg : FastMessage) (h : Handlers)
    (eff : Effects) (s : String) :
    (handle_msg msg ⟨Except.error (CueballError.OtherErr s)⟩ h eff).1 =
      Except.error (other_error s)
    ∧ (handle_msg msg ⟨Except.error (CueballError.OtherErr s)⟩ h
          eff).2.fast_requests_obs =
        (msg.data.name, "false") :: eff.fast_requests_obs
    ∧ (handle_msg msg ⟨Except.error (CueballError.OtherErr s)⟩ h
          eff).2.logs =
        (LogLevel.error, "unexpected error claiming connection") :: eff.logs :=
  ⟨rfl, rfl, rfl⟩

/-- Claim C5: the request handler adapter fails with exactly the message
"Failed to parse JSON data as payload for {method} function" on an empty
payload list without invoking the action (the result does not depend on the
action), and on a non-empty list passes the first element to the action,
with any string error returned by the action passing through unchanged
into the IO-style failure. -/
theorem handle_request_envelope {X : Type} (msg_id : Nat) (method : String)
    (conn : PostgresConnection)
    (act act2 : Nat → String → X → PostgresConnection →
      Except String HandlerResponse)
    (eff : Effects) (x : X) (rest : List X) :
    ((handle_request msg_id method (Except.ok ([] : List X)) conn act
          eff).1 =
        Except.error (HandlerError.Io (other_error
          ("Failed to parse JSON data as payload for " ++ method
            ++ " function")))
      ∧ handle_request msg_id method (Except.ok ([] : List X)) conn act eff =
          handle_request msg_id method (Except.ok ([] : List X)) conn act2 eff)
    ∧ (handle_request msg_id method (Except.ok (x :: rest)) conn act eff).1 =
        (match act msg_id method x conn with
         | Except.ok r => Except.ok r
         | Except.error e =>
             Except.error (HandlerError.Io (other_error e))) := by
  refine ⟨⟨rfl, rfl⟩, ?_⟩
  cases ha : act msg_id method x conn with
  | ok r => simp [handle_request, unwrap_fast_message, ha]
  | error e => simp [handle_request, unwrap_fast_message, ha]

/-- Claim C6: for every name in the method registry, dispatch routes the
request to that method's own decode/action pair and no other: method
"getobject" invokes `object::get::decode_msg` and `object::get::action`,
and analogously for each of the other ten registered names. -/
theorem registry_routes_each_method (h : Handlers) (msg_id : Nat) (d : Json)
    (conn : PostgresConnection) (eff : Effects) :
    dispatchMethod h msg_id "getobject" d conn eff =
      handle_request msg_id "getobject" (h.object_get_decode d) conn
        h.object_get_action eff
    ∧ dispatchMethod h msg_id "createobject" d conn eff =
        handle_request msg_id "createobject" (h.object_create_decode d) conn
          h.object_create_action eff
    ∧ dispatchMethod h msg_id "updateobject" d conn eff =
        handle_request msg_id "updateobject" (h.object_update_decode d) conn
          h.object_update_action eff
    ∧ dispatchMethod h msg_id "deleteobject" d conn eff =
        handle_request msg_id "deleteobject" (h.object_delete_decode d) conn
          h.object_delete_action eff
    ∧ dispatchMethod h msg_id "listobjects" d conn eff =
        handle_request msg_id "listobjects" (h.object_list_decode d) conn
          h.object_list_action eff
    ∧ dispatchMethod h msg_id "getbucket" d conn eff =
        handle_request msg_id "getbucket" (h.bucket_get_decode d) conn
          h.bucket_get_action eff
    ∧ dispatchMethod h msg_id "createbucket" d conn eff =
        handle_request msg_id "createbucket" (h.bucket_create_decode d) conn
          h.bucket_create_action eff
    ∧ dispatchMethod h msg_id "deletebucket" d conn eff =
        handle_request msg_id "deletebucket" (h.bucket_delete_decode d) conn
          h.bucket_delete_action eff
    ∧ dispatchMethod h msg_id "listbuckets" d conn eff =
        handle_request msg_id "listbuckets" (h.bucket_list_decode d) conn
          h.bucket_list_action eff
    ∧ dispatchMethod h msg_id "getgcbatch" d conn eff =
        handle_request msg_id "getgcbatch" (h.gc_get_decode d) conn
          h.gc_get_action eff
    ∧ dispatchMethod h msg_id "deletegcbatch" d conn eff =
        handle_request msg_id "deletegcbatch" (h.gc_delete_decode d) conn
          h.gc_delete_action eff :=
  ⟨rfl, rfl, rfl, rfl, rfl, rfl, rfl, rfl, rfl, rfl, rfl⟩

/-- Claim C7: every call to `handle_msg` increments the shared request
counter exactly once, unconditionally, regardless of which outcome branch
the call takes. -/
theorem request_counter_increments_once (msg : FastMessage) (pool : Pool)
    (h : Handlers) (eff : Effects) :
    (handle_msg msg pool h eff).2.request_count = eff.request_count + 1 := by
  cases pool with
  | mk claim =>
    cases claim with
    | error e =>
      cases e with
      | ClaimFailure => rfl
      | OtherErr s => rfl
    | ok conn =>
      rcases hd : dispatchMethod h msg.id msg.data.name msg.data.d conn
          { eff with request_count := eff.request_count + 1,
                     connection_claim_obs := "true" :: eff.connection_claim_obs }
        with ⟨res, eff3⟩
      have heff := dispatchMethod_effects h msg.id msg.data.name msg.data.d
        conn { eff with request_count := eff.request_count + 1,
                        connection_claim_obs := "true" :: eff.connection_claim_obs }
      rw [hd] at heff
      cases res with
      | ok r =>
          rw [handle_msg_claimed_dispatch_ok msg conn h eff r eff3 hd]
          exact heff.1
      | error e =>
          cases e with
          | Cueball ce =>
              have hnc := dispatchMethod_no_cueball h msg.id msg.data.name
                msg.data.d conn
                { eff with request_count := eff.request_count + 1,
                           connection_claim_obs := "true" :: eff.connection_claim_obs }
              rw [hd] at hnc
              simp [isCueballErr] at hnc
          | Io io_err =>
              rw [handle_msg_claimed_dispatch_err msg conn h eff io_err eff3 hd]
              exact heff.1

/-- Claim C8: every connection-claim attempt records exactly one
observation in the claim-latency histogram, labeled "true" if and only if
the claim succeeded and "false" otherwise, and returns the pool's claim
result unchanged. -/
theorem claim_latency_single_observation (pool : Pool) (eff : Effects) :
    (claim_pool_connection pool eff).1 = pool.claim
    ∧ (claim_pool_connection pool eff).2.connection_claim_obs =
        (if exceptIsOk pool.claim then "true" else "false")
          :: eff.connection_claim_obs :=
  ⟨rfl, rfl⟩

/-- Claim C9: the synthesized overload (claim-timeout) response echoes the
request's method name in its message data: for every claim-timeout
dispatch, the returned message's method field equals the request's method
field. -/
theorem overload_response_echoes_method (msg : FastMessage) (h : Handlers)
    (eff : Effects) :
    Except.map (List.map (fun m : FastMessage => m.data.name))
      (handle_msg msg ⟨Except.error CueballError.ClaimFailure⟩ h eff).1 =
      Except.ok [msg.data.name] :=
  rfl

/-- Claim C10: once a connection has been successfully claimed, a dispatch
call never returns the synthesized OverloadedError success response: the
call's success is exactly the dispatched handler's success (so adapter
failures are always propagated as Err), and the dispatch step never
produces the pool's ClaimFailure error, which is the only trigger of the
overload recovery branch. -/
theorem claimed_connection_never_overloads (msg : FastMessage)
    (conn : PostgresConnection) (h : Handlers) (eff : Effects) :
    exceptIsOk (handle_msg msg ⟨Except.ok conn⟩ h eff).1 =
      exceptIsOk (dispatchMethod h msg.id msg.data.name msg.data.d conn
        { eff with request_count := eff.request_count + 1,
                   connection_claim_obs := "true" :: eff.connection_claim_obs }).1
    ∧ isCueballErr (dispatchMethod h msg.id msg.data.name msg.data.d conn
        { eff with request_count := eff.request_count + 1,
                   connection_claim_obs := "true" :: eff.connection_claim_obs }).1
      = false := by
  refine ⟨?_, dispatchMethod_no_cueball _ _ _ _ _ _⟩
  rcases hd : dispatchMethod h msg.id msg.data.name msg.data.d conn
      { eff with request_count := eff.request_count + 1,
                 connection_claim_obs := "true" :: eff.connection_claim_obs }
    with ⟨res, eff3⟩
  cases res with
  | ok r =>
      rw [handle_msg_claimed_dispatch_ok msg conn h eff r eff3 hd]
      rfl
  | error e =>
      cases e with
      | Cueball ce =>
          have hnc := dispatchMethod_no_cueball h msg.id msg.data.name
            msg.data.d conn
            { eff with request_count := eff.request_count + 1,
                       connection_claim_obs := "true" :: eff.connection_claim_obs }
          rw [hd] at hnc
          simp [isCueballErr] at hnc
      | Io io_err =>
          rw [handle_msg_claimed_dispatch_err msg conn h eff io_err eff3 hd]
          rfl
